import Mathlib

/-!
Shallow embedding of the Blue desktop-environment session core
(src/compositor.rs, src/launcher.rs, src/lib.rs) and proofs about it.

External effects (process spawning, command execution, status queries,
TOML parsing) are modelled as explicit inputs; machine floats are
modelled as rationals; Rust panics are modelled as `Except.error`.
-/

/-- Model of `toml::Value`: only the shapes the session core inspects
(string leaves and tables); every other TOML value is `other`. -/
inductive TomlValue where
  | str : String → TomlValue
  | table : List (String × TomlValue) → TomlValue
  | other : TomlValue

/-- Model of `toml::Value::get`: table lookup returning `Option`,
`none` on a non-table receiver or a missing key. -/
def TomlValue.get : TomlValue → String → Option TomlValue
  | .table kv, k => (kv.find? (fun p => p.1 == k)).map (fun p => p.2)
  | .str _, _ => none
  | .other, _ => none

/-- Model of the panicking `ops::Index` impl of `toml::Value`
(`self.get(index).expect("index not found")`): a missing key aborts. -/
def TomlValue.index (v : TomlValue) (k : String) : Except String TomlValue :=
  match v.get k with
  | some w => Except.ok w
  | none => Except.error "index not found"

/-- Model of `toml::Value::as_str`. -/
def TomlValue.as_str : TomlValue → Option String
  | .str s => some s
  | .table _ => none
  | .other => none

/-- Model of `std::process::Child`: an opaque handle identified by a number. -/
structure Child where
  id : Nat
deriving DecidableEq, Repr

/-- Outcome of `Command::spawn()` as seen by the caller. -/
inductive SpawnRes where
  | ok (child : Child)
  | err (msg : String)
deriving DecidableEq, Repr

/-- Combined outcome of `Child::try_wait()`: `Ok(Some(_))` (exited),
`Ok(None)` (still running), or `Err(_)`. -/
inductive TryWaitRes where
  | exited
  | stillRunning
  | errored
deriving DecidableEq, Repr

/-- Model of `try_wait().unwrap_or(None)`: the error case collapses to `None`. -/
def tryWaitUnwrapOrNone : TryWaitRes → Option Unit
  | .exited => some ()
  | .stillRunning => none
  | .errored => none

/-- Outcome of a blocking `Command::output()` status query:
captured stdout on success, or a submission error. -/
inductive QueryRes where
  | ok (stdout : String)
  | err
deriving DecidableEq, Repr

/-- Rust `f32::clamp(0.0, 1.0)` on the rational model. -/
def clamp01 (x : ℚ) : ℚ := min (max x 0) 1

/-- Rust `as u32` cast of a float: truncation toward zero, `0` below zero. -/
def ratAsU32 (x : ℚ) : Nat := (x.num / (x.den : Int)).toNat

/-- Substring test on character lists: some tail has `pat` as a prefix. -/
def listContainsSub (pat l : List Char) : Bool :=
  l.tails.any (fun t => pat.isPrefixOf t)

/-- Model of Rust `str::contains` (substring containment). -/
def strContains (s pat : String) : Bool := listContainsSub pat.data s.data

/-- Split a character list at newline characters. -/
def splitLinesAux : List Char → List Char → List (List Char)
  | [], acc => [acc.reverse]
  | c :: rest, acc =>
    if c = '\n' then acc.reverse :: splitLinesAux rest []
    else splitLinesAux rest (c :: acc)

/-- Model of Rust `str::lines` (split at newline characters). -/
def strLines (s : String) : List String :=
  (splitLinesAux s.data []).map (fun l => String.mk l)

/-- Model of `HashMap::contains_key` on the association-list model of `running_apps`. -/
def appsContains (m : List (String × Child)) (k : String) : Bool :=
  m.any (fun p => p.1 == k)

/-- Model of `HashMap::insert` on the association-list model: replaces any entry
with the same key. -/
def appsInsert (m : List (String × Child)) (k : String) (c : Child) :
    List (String × Child) :=
  m.filter (fun p => p.1 != k) ++ [(k, c)]

/-- Model of `running_apps.retain(|_, child| child.try_wait().unwrap_or(None).is_none())`:
keep exactly the entries whose liveness check did not report an exit. -/
def reapApps (tryWait : Child → TryWaitRes) (m : List (String × Child)) :
    List (String × Child) :=
  m.filter (fun p => (tryWaitUnwrapOrNone (tryWait p.2)).isNone)

/-- Session state of the compositor (`BlueEnvironment` in src/compositor.rs),
restricted to the fields the session state machine reads and writes;
wayland/render handles are external collaborators and carry no session logic. -/
structure BlueEnvironment where
  config : TomlValue
  running_apps : List (String × Child)
  notifications : List String
  brightness : ℚ
  volume : ℚ
  wifi_enabled : Bool
  bluetooth_enabled : Bool
  battery_status : String
  time : String

/-- Line 105 of src/compositor.rs:
`self.config["apps"].get(app).and_then(|v| v.as_str()).unwrap_or(app)`.
The outer `["apps"]` indexing panics when the key is absent. -/
def BlueEnvironment.resolve_app_path (config : TomlValue) (app : String) :
    Except String String :=
  (config.index "apps").map
    (fun apps => (((apps.get app).bind TomlValue.as_str).getD app))

/-- Model of `BlueEnvironment::launch_app` (src/compositor.rs lines 104-115): resolve the
path, spawn, and on success insert the child and push a "Launched" notification;
on spawn failure push a failure notification. There is no already-running check.
`spawn` models the execution sink. -/
def BlueEnvironment.launch_app (s : BlueEnvironment) (app : String)
    (spawn : String → SpawnRes) : Except String BlueEnvironment :=
  match BlueEnvironment.resolve_app_path s.config app with
  | Except.error e => Except.error e
  | Except.ok app_path =>
    match spawn app_path with
    | SpawnRes.ok child =>
      Except.ok { s with
        running_apps := appsInsert s.running_apps app child,
        notifications := s.notifications ++ ["Launched " ++ app] }
    | SpawnRes.err e =>
      Except.ok { s with
        notifications := s.notifications ++ ["Failed to launch " ++ app ++ ": " ++ e] }

/-- Model of `BlueEnvironment::adjust_brightness` (src/compositor.rs lines 225-234):
clamp, store, fire-and-forget `brightnessctl` (result discarded by `.ok()`,
modelled by the unused `_submit`), push the optimistic notification. -/
def BlueEnvironment.adjust_brightness (s : BlueEnvironment) (delta : ℚ)
    (_submit : SpawnRes) : BlueEnvironment :=
  let brightness := clamp01 (s.brightness + delta)
  let brightness_percent := ratAsU32 (brightness * 100)
  { s with
    brightness := brightness,
    notifications := s.notifications ++
      ["Brightness set to " ++ toString brightness_percent ++ "%"] }

/-- Model of `BlueEnvironment::adjust_volume` (src/compositor.rs lines 236-244):
clamp, store, fire-and-forget `wpctl` (result discarded), push notification. -/
def BlueEnvironment.adjust_volume (s : BlueEnvironment) (delta : ℚ)
    (_submit : SpawnRes) : BlueEnvironment :=
  let volume := clamp01 (s.volume + delta)
  let volume_percent := ratAsU32 (volume * 100)
  { s with
    volume := volume,
    notifications := s.notifications ++
      ["Volume set to " ++ toString volume_percent ++ "%"] }

/-- Model of `BlueEnvironment::toggle_wifi` (src/compositor.rs lines 246-254):
flip the boolean, fire-and-forget `nmcli` (result discarded), push notification. -/
def BlueEnvironment.toggle_wifi (s : BlueEnvironment) (_submit : SpawnRes) :
    BlueEnvironment :=
  let wifi_enabled := !s.wifi_enabled
  let status := if wifi_enabled then "on" else "off"
  { s with
    wifi_enabled := wifi_enabled,
    notifications := s.notifications ++ ["Wi-Fi turned " ++ status] }

/-- Model of `BlueEnvironment::toggle_bluetooth` (src/compositor.rs lines 256-264). -/
def BlueEnvironment.toggle_bluetooth (s : BlueEnvironment) (_submit : SpawnRes) :
    BlueEnvironment :=
  let bluetooth_enabled := !s.bluetooth_enabled
  let status := if bluetooth_enabled then "on" else "off"
  { s with
    bluetooth_enabled := bluetooth_enabled,
    notifications := s.notifications ++ ["Bluetooth turned " ++ status] }

/-- Model of `BlueEnvironment::set_timezone` (src/compositor.rs lines 301-308):
fire-and-forget `timedatectl` (result discarded), refresh the cached clock
string (`now` models `get_current_time()`), push notification. -/
def BlueEnvironment.set_timezone (s : BlueEnvironment) (timezone : String)
    (_submit : SpawnRes) (now : String) : BlueEnvironment :=
  { s with
    time := now,
    notifications := s.notifications ++ ["Timezone set to " ++ timezone] }

/-- Model of `BlueEnvironment::get_battery_status` (src/compositor.rs lines 266-278):
on query success, keep the lines containing "state:" or "percentage:" and join
them with ", "; on query failure, "Battery not detected". -/
def BlueEnvironment.get_battery_status (q : QueryRes) : String :=
  match q with
  | QueryRes.ok out =>
    String.intercalate ", "
      ((strLines out).filter
        (fun line => strContains line "state:" || strContains line "percentage:"))
  | QueryRes.err => "Battery not detected"

/-- Model of `BlueEnvironment::get_wifi_status` (src/compositor.rs lines 285-291):
stdout contains "enabled", defaulting to `false` on query failure. -/
def BlueEnvironment.get_wifi_status (q : QueryRes) : Bool :=
  match q with
  | QueryRes.ok out => strContains out "enabled"
  | QueryRes.err => false

/-- Model of `BlueEnvironment::get_bluetooth_status` (src/compositor.rs lines 293-299):
stdout contains "Powered: yes", defaulting to `false` on query failure. -/
def BlueEnvironment.get_bluetooth_status (q : QueryRes) : Bool :=
  match q with
  | QueryRes.ok out => strContains out "Powered: yes"
  | QueryRes.err => false

/-- The reap step of the compositor main loop (src/compositor.rs line 374). -/
def BlueEnvironment.reap (s : BlueEnvironment) (tryWait : Child → TryWaitRes) :
    BlueEnvironment :=
  { s with running_apps := reapApps tryWait s.running_apps }

/-- Session-relevant state of the settings-panel client (`BlueLauncher`
in src/launcher.rs); egui rendering handles are external. -/
structure BlueLauncher where
  config : TomlValue
  running_apps : List (String × Child)
  distro : String
  brightness : ℚ
  volume : ℚ
  wifi_enabled : Bool
  bluetooth_enabled : Bool
  battery_status : String
  time : String
  clipboard_content : String
  notifications : List String

/-- Model of `BlueLauncher::launch_app` (src/launcher.rs lines 87-108): if already
tracked, return `false` with nothing appended; otherwise look the path up via
the panicking `self.config["apps"][app]` indexing, require a string value
(else a "No path" notification), then spawn and record the outcome. -/
def BlueLauncher.launch_app (s : BlueLauncher) (app : String)
    (spawn : String → SpawnRes) : Except String (BlueLauncher × Bool) :=
  if appsContains s.running_apps app then Except.ok (s, false)
  else
    match s.config.index "apps" with
    | Except.error e => Except.error e
    | Except.ok apps =>
      match apps.index app with
      | Except.error e => Except.error e
      | Except.ok v =>
        match v.as_str with
        | some app_path =>
          match spawn app_path with
          | SpawnRes.ok child =>
            Except.ok ({ s with
              running_apps := appsInsert s.running_apps app child,
              notifications := s.notifications ++ ["Launched " ++ app] }, true)
          | SpawnRes.err e =>
            Except.ok ({ s with
              notifications := s.notifications ++
                ["Failed to launch " ++ app ++ ": " ++ e] }, false)
        | none =>
          Except.ok ({ s with
            notifications := s.notifications ++
              ["No path for app " ++ app ++ " in config"] }, false)

/-- Model of `BlueLauncher::adjust_brightness` (src/launcher.rs lines 110-119),
identical to the compositor's. -/
def BlueLauncher.adjust_brightness (s : BlueLauncher) (delta : ℚ)
    (_submit : SpawnRes) : BlueLauncher :=
  let brightness := clamp01 (s.brightness + delta)
  let brightness_percent := ratAsU32 (brightness * 100)
  { s with
    brightness := brightness,
    notifications := s.notifications ++
      ["Brightness set to " ++ toString brightness_percent ++ "%"] }

/-- Model of `BlueLauncher::adjust_volume` (src/launcher.rs lines 121-129). -/
def BlueLauncher.adjust_volume (s : BlueLauncher) (delta : ℚ)
    (_submit : SpawnRes) : BlueLauncher :=
  let volume := clamp01 (s.volume + delta)
  let volume_percent := ratAsU32 (volume * 100)
  { s with
    volume := volume,
    notifications := s.notifications ++
      ["Volume set to " ++ toString volume_percent ++ "%"] }

/-- Model of `BlueLauncher::toggle_wifi` (src/launcher.rs lines 131-139). -/
def BlueLauncher.toggle_wifi (s : BlueLauncher) (_submit : SpawnRes) :
    BlueLauncher :=
  let wifi_enabled := !s.wifi_enabled
  let status := if wifi_enabled then "on" else "off"
  { s with
    wifi_enabled := wifi_enabled,
    notifications := s.notifications ++ ["Wi-Fi turned " ++ status] }

/-- Model of `BlueLauncher::toggle_bluetooth` (src/launcher.rs lines 141-149). -/
def BlueLauncher.toggle_bluetooth (s : BlueLauncher) (_submit : SpawnRes) :
    BlueLauncher :=
  let bluetooth_enabled := !s.bluetooth_enabled
  let status := if bluetooth_enabled then "on" else "off"
  { s with
    bluetooth_enabled := bluetooth_enabled,
    notifications := s.notifications ++ ["Bluetooth turned " ++ status] }

/-- Model of `BlueLauncher::get_battery_status` (src/launcher.rs lines 151-163): the
first line containing "state:" or "percentage:", trimmed; "Unknown battery
status" when no line matches; "Battery not detected" on query failure. -/
def BlueLauncher.get_battery_status (q : QueryRes) : String :=
  match q with
  | QueryRes.ok out =>
    (((strLines out).find?
        (fun line => strContains line "state:" || strContains line "percentage:")).map
      String.trim).getD "Unknown battery status"
  | QueryRes.err => "Battery not detected"

/-- Model of `BlueLauncher::get_wifi_status` (src/launcher.rs lines 172-178). -/
def BlueLauncher.get_wifi_status (q : QueryRes) : Bool :=
  match q with
  | QueryRes.ok out => strContains out "enabled"
  | QueryRes.err => false

/-- Model of `BlueLauncher::get_bluetooth_status` (src/launcher.rs lines 180-186). -/
def BlueLauncher.get_bluetooth_status (q : QueryRes) : Bool :=
  match q with
  | QueryRes.ok out => strContains out "Powered: yes"
  | QueryRes.err => false

/-- The reap step at the top of `BlueLauncher::update` (src/launcher.rs line 199). -/
def BlueLauncher.reap (s : BlueLauncher) (tryWait : Child → TryWaitRes) :
    BlueLauncher :=
  { s with running_apps := reapApps tryWait s.running_apps }

/-- xkb keysym `XKB_KEY_Escape`. -/
def KEY_Escape : Nat := 65307
/-- xkb keysym `XKB_KEY_B`. -/
def KEY_B : Nat := 66
/-- xkb keysym `XKB_KEY_G`. -/
def KEY_G : Nat := 71
/-- xkb keysym `XKB_KEY_T`. -/
def KEY_T : Nat := 84
/-- xkb keysym `XKB_KEY_S`. -/
def KEY_S : Nat := 83
/-- xkb keysym `XKB_KEY_W`. -/
def KEY_W : Nat := 87
/-- xkb keysym `XKB_KEY_L`. -/
def KEY_L : Nat := 76
/-- xkb keysym `XKB_KEY_V`. -/
def KEY_V : Nat := 86
/-- xkb keysym `XKB_KEY_K`. -/
def KEY_K : Nat := 75

/-- The two modifier flags `BlueEnvironment::handle_input` reads from the
keyboard's modifier state. -/
structure Modifiers where
  logo : Bool
  shift : Bool
deriving DecidableEq, Repr

/-- The session operations a keyboard event can dispatch to. -/
inductive HotkeyAction where
  | returnToDesktop
  | launch (app : String)
  | toggleWifi
  | toggleBluetooth
  | adjustVolume (delta : ℚ)
deriving DecidableEq, Repr

/-- The `InputEvent::Keyboard` arm of `BlueEnvironment::handle_input`
(src/compositor.rs lines 119-167): the guard chain in source order, each
matching guard dispatching its operation. The returned list is the sequence
of operations invoked for one physical key event. -/
def handle_keyboard_input (keycode : Nat) (m : Modifiers) (pressed : Bool) :
    List HotkeyAction :=
  (if keycode = KEY_Escape ∧ m.logo ∧ pressed then [HotkeyAction.returnToDesktop] else []) ++
  (if keycode = KEY_B ∧ m.logo ∧ pressed then [HotkeyAction.launch "browser"] else []) ++
  (if keycode = KEY_G ∧ m.logo ∧ pressed then [HotkeyAction.launch "game_launcher"] else []) ++
  (if keycode = KEY_T ∧ m.logo ∧ pressed then [HotkeyAction.launch "terminal"] else []) ++
  (if keycode = KEY_S ∧ m.logo ∧ pressed then [HotkeyAction.launch "software_center"] else []) ++
  (if keycode = KEY_W ∧ m.logo ∧ pressed then [HotkeyAction.toggleWifi] else []) ++
  (if keycode = KEY_L ∧ m.logo ∧ pressed then [HotkeyAction.toggleBluetooth] else []) ++
  (if keycode = KEY_V ∧ m.logo ∧ pressed then [HotkeyAction.adjustVolume (1/10)] else []) ++
  (if keycode = KEY_V ∧ m.logo ∧ m.shift ∧ pressed then [HotkeyAction.adjustVolume (-(1/10))] else []) ++
  (if keycode = KEY_K ∧ m.logo ∧ pressed then [HotkeyAction.launch "kwalletmanager5"] else [])

/-- Config loading shared by `load_config` (src/lib.rs lines 8-12) and
`BlueEnvironment::new` (src/compositor.rs lines 69-71): read the well-known
file (`fileContents`, `none` when unreadable), fall back to the embedded
document, then parse; a parse failure is the fatal
`expect("Invalid config format")` panic. `parse` models the TOML grammar. -/
def load_config (fileContents : Option String) (embedded : String)
    (parse : String → Option TomlValue) : Except String TomlValue :=
  let config_str := fileContents.getD embedded
  match parse config_str with
  | some config => Except.ok config
  | none => Except.error "Invalid config format"

/-- Model of `BlueEnvironment::new` (src/compositor.rs lines 59-102): session state is
built only after the config parses; the startup-seeding query results and the
clock string are inputs from the execution sink. -/
def BlueEnvironment.new (fileContents : Option String) (embedded : String)
    (parse : String → Option TomlValue) (wifiQ btQ batQ : QueryRes)
    (time : String) : Except String BlueEnvironment :=
  (load_config fileContents embedded parse).map (fun config =>
    { config := config
      running_apps := []
      notifications := []
      brightness := 1/2
      volume := 1/2
      wifi_enabled := BlueEnvironment.get_wifi_status wifiQ
      bluetooth_enabled := BlueEnvironment.get_bluetooth_status btQ
      battery_status := BlueEnvironment.get_battery_status batQ
      time := time })

/-- Whether compositor startup reached the main loop with a session state,
or aborted first. -/
inductive MainOutcome where
  | aborted (msg : String)
  | enteredLoop (s : BlueEnvironment)

/-- Model of `main` in src/compositor.rs (lines 318-385) up to loop entry: construct
the session state, then enter the event loop; a panic in `new` aborts the
process before any session state exists or the loop runs. -/
def compositorMain (fileContents : Option String) (embedded : String)
    (parse : String → Option TomlValue) (wifiQ btQ batQ : QueryRes)
    (time : String) : MainOutcome :=
  match BlueEnvironment.new fileContents embedded parse wifiQ btQ batQ time with
  | Except.error e => MainOutcome.aborted e
  | Except.ok s => MainOutcome.enteredLoop s

/-- One settings-controller adjustment call, with the (discarded) submission
outcome of its fire-and-forget command. -/
inductive SettingsOp where
  | adjBrightness (delta : ℚ) (submit : SpawnRes)
  | adjVolume (delta : ℚ) (submit : SpawnRes)

/-- Run a sequence of adjustment calls against the compositor state. -/
def applySettingsOps (s : BlueEnvironment) : List SettingsOp → BlueEnvironment
  | [] => s
  | SettingsOp.adjBrightness d r :: rest =>
    applySettingsOps (s.adjust_brightness d r) rest
  | SettingsOp.adjVolume d r :: rest =>
    applySettingsOps (s.adjust_volume d r) rest

/-- Lemma: `clamp01` always lands in the unit interval. -/
theorem clamp01_mem_unit (x : ℚ) : 0 ≤ clamp01 x ∧ clamp01 x ≤ 1 :=
  ⟨le_min (le_max_right x 0) zero_le_one, min_le_right _ _⟩

/-- C1: pressing key V with modifier set {logo, shift} runs both the
logo-only volume-up guard (which never checks shift) and the logo+shift
volume-down guard: the dispatcher invokes `adjust_volume(0.1)` and then
`adjust_volume(-0.1)` in one physical press, and in particular does not
invoke exactly the volume-down operation alone. -/
theorem hotkey_logo_shift_v_double_dispatch :
    handle_keyboard_input KEY_V { logo := true, shift := true } true =
      [HotkeyAction.adjustVolume (1/10), HotkeyAction.adjustVolume (-(1/10))] ∧
    handle_keyboard_input KEY_V { logo := true, shift := true } true ≠
      [HotkeyAction.adjustVolume (-(1/10))] := by
  have h1 : handle_keyboard_input KEY_V { logo := true, shift := true } true =
      [HotkeyAction.adjustVolume (1/10), HotkeyAction.adjustVolume (-(1/10))] := rfl
  refine ⟨h1, ?_⟩
  rw [h1]
  simp

/-- C6: two consecutive `toggle_wifi` calls restore the original boolean in
both components and push exactly two notifications describing opposite
states, whatever the discarded submission outcomes were. -/
theorem toggle_wifi_self_inverse (s : BlueEnvironment) (l : BlueLauncher)
    (r r' : SpawnRes) :
    ((s.toggle_wifi r).toggle_wifi r').wifi_enabled = s.wifi_enabled ∧
    ((s.toggle_wifi r).toggle_wifi r').notifications =
      s.notifications ++
        ["Wi-Fi turned " ++ (if s.wifi_enabled then "off" else "on"),
         "Wi-Fi turned " ++ (if s.wifi_enabled then "on" else "off")] ∧
    (if s.wifi_enabled then "off" else "on") ≠
      (if s.wifi_enabled then "on" else "off") ∧
    ((l.toggle_wifi r).toggle_wifi r').wifi_enabled = l.wifi_enabled := by
  refine ⟨?_, ?_, ?_, ?_⟩
  · cases h : s.wifi_enabled <;> simp [BlueEnvironment.toggle_wifi, h]
  · cases h : s.wifi_enabled <;> simp [BlueEnvironment.toggle_wifi, h]
  · cases h : s.wifi_enabled <;> decide
  · cases h : l.wifi_enabled <;> simp [BlueLauncher.toggle_wifi, h]

/-- The unit-interval invariant on brightness and volume is preserved by any
sequence of adjustment calls. -/
theorem applySettingsOps_mem_unit (ops : List SettingsOp) (s : BlueEnvironment)
    (hb : 0 ≤ s.brightness ∧ s.brightness ≤ 1)
    (hv : 0 ≤ s.volume ∧ s.volume ≤ 1) :
    (0 ≤ (applySettingsOps s ops).brightness ∧
      (applySettingsOps s ops).brightness ≤ 1) ∧
    (0 ≤ (applySettingsOps s ops).volume ∧
      (applySettingsOps s ops).volume ≤ 1) := by
  induction ops generalizing s with
  | nil => exact ⟨hb, hv⟩
  | cons op rest ih =>
    cases op with
    | adjBrightness d r => exact ih (s.adjust_brightness d r) (clamp01_mem_unit _) hv
    | adjVolume d r => exact ih (s.adjust_volume d r) hb (clamp01_mem_unit _)

/-- C3: starting from a freshly constructed session state, after every sequence
of `adjust_brightness`/`adjust_volume` calls with arbitrary rational deltas
(and arbitrary discarded submission outcomes), the stored brightness and volume
are within [0, 1]. Every prefix of a sequence is itself a sequence, so this
covers the value after each call. -/
theorem settings_always_in_unit_interval (fileContents : Option String)
    (embedded : String) (parse : String → Option TomlValue)
    (wifiQ btQ batQ : QueryRes) (time : String) (s : BlueEnvironment)
    (ops : List SettingsOp)
    (hok : BlueEnvironment.new fileContents embedded parse wifiQ btQ batQ time =
      Except.ok s) :
    (0 ≤ (applySettingsOps s ops).brightness ∧
      (applySettingsOps s ops).brightness ≤ 1) ∧
    (0 ≤ (applySettingsOps s ops).volume ∧
      (applySettingsOps s ops).volume ≤ 1) := by
  have hinit : 0 ≤ s.brightness ∧ s.brightness ≤ 1 ∧
      0 ≤ s.volume ∧ s.volume ≤ 1 := by
    unfold BlueEnvironment.new load_config at hok
    cases hp : parse (fileContents.getD embedded) with
    | none => simp [hp, Except.map] at hok
    | some config =>
      simp only [hp, Except.map] at hok
      cases hok
      refine ⟨by norm_num, by norm_num, by norm_num, by norm_num⟩
  exact applySettingsOps_mem_unit ops s ⟨hinit.1, hinit.2.1⟩
    ⟨hinit.2.2.1, hinit.2.2.2⟩

/-- A concrete freshly constructed session state used by witnesses. -/
def freshEnv : BlueEnvironment :=
  { config := TomlValue.other, running_apps := [],
    notifications := [], brightness := 1/2, volume := 1/2,
    wifi_enabled := false, bluetooth_enabled := false,
    battery_status := "Battery not detected", time := "t" }

/-- A concrete adjustment sequence used by the C3 witness. -/
def sampleOps : List SettingsOp :=
  [SettingsOp.adjVolume 5 (SpawnRes.ok ⟨1⟩),
   SettingsOp.adjBrightness (-(7)) (SpawnRes.err "e")]

/-- Witness for C3 at a concrete startup and a concrete call sequence. -/
theorem settings_always_in_unit_interval_witness :
    (BlueEnvironment.new none "" (fun _ => some TomlValue.other)
        QueryRes.err QueryRes.err QueryRes.err "t" = Except.ok freshEnv) ∧
    (0 ≤ (applySettingsOps freshEnv sampleOps).volume ∧
      (applySettingsOps freshEnv sampleOps).volume ≤ 1) :=
  ⟨rfl,
   (settings_always_in_unit_interval none "" (fun _ => some TomlValue.other)
      QueryRes.err QueryRes.err QueryRes.err "t" freshEnv sampleOps rfl).2⟩

/-- C4 amended: every fire-and-forget device operation discards the submission
outcome entirely — the resulting state (including the notification log) is
identical whether the spawn succeeded or failed — and its single appended
notification is the optimistic one, so a submission failure is never recorded. -/
theorem fire_and_forget_discards_submission_outcome (s : BlueEnvironment)
    (d : ℚ) (tz now : String) (r r' : SpawnRes) :
    s.adjust_brightness d r = s.adjust_brightness d r' ∧
    s.adjust_volume d r = s.adjust_volume d r' ∧
    s.toggle_wifi r = s.toggle_wifi r' ∧
    s.toggle_bluetooth r = s.toggle_bluetooth r' ∧
    s.set_timezone tz r now = s.set_timezone tz r' now ∧
    (s.adjust_brightness d r).notifications.length = s.notifications.length + 1 ∧
    (s.adjust_volume d r).notifications.length = s.notifications.length + 1 ∧
    (s.toggle_wifi r).notifications.length = s.notifications.length + 1 ∧
    (s.toggle_bluetooth r).notifications.length = s.notifications.length + 1 ∧
    (s.set_timezone tz r now).notifications.length = s.notifications.length + 1 := by
  refine ⟨rfl, rfl, rfl, rfl, rfl, ?_, ?_, ?_, ?_, ?_⟩ <;>
    simp [BlueEnvironment.adjust_brightness, BlueEnvironment.adjust_volume,
      BlueEnvironment.toggle_wifi, BlueEnvironment.toggle_bluetooth,
      BlueEnvironment.set_timezone]

/-- C4 counterexample: an `adjust_brightness` call whose `brightnessctl`
submission fails with a concrete OS error leaves a state identical to the
successful-submission one, and the only appended notification is the
optimistic "Brightness set to 60%" — the submission failure is not recorded. -/
theorem adjust_brightness_submission_failure_unrecorded :
    freshEnv.adjust_brightness (1/10)
        (SpawnRes.err "No such file or directory (os error 2)") =
      freshEnv.adjust_brightness (1/10) (SpawnRes.ok ⟨7⟩) ∧
    (freshEnv.adjust_brightness (1/10)
        (SpawnRes.err "No such file or directory (os error 2)")).notifications =
      ["Brightness set to 60%"] := by
  constructor
  · rfl
  · have e : ratAsU32 (clamp01 ((1:ℚ)/2 + 1/10) * 100) = 60 := by
      have h : clamp01 ((1:ℚ)/2 + 1/10) = 3/5 := by norm_num [clamp01]
      rw [h]
      norm_num [ratAsU32]
      rfl
    show freshEnv.notifications ++
        ["Brightness set to " ++
          toString (ratAsU32 (clamp01 (freshEnv.brightness + 1/10) * 100)) ++ "%"] =
      ["Brightness set to 60%"]
    rw [show freshEnv.brightness = (1:ℚ)/2 from rfl, e]
    rfl

/-- Compositor session state with one tracked browser process and an empty
apps table in the config. -/
def envWithBrowserRunning : BlueEnvironment :=
  { freshEnv with
    config := TomlValue.table [("apps", TomlValue.table [])],
    running_apps := [("browser", ⟨1⟩)] }

/-- C2 counterexample: in the compositor, launching "browser" while its process
is still tracked spawns again (the tracked child handle is replaced by the new
one) and appends another "Launched browser" notification — there is no
already-running check in `BlueEnvironment::launch_app`. -/
theorem compositor_relaunch_spawns_and_notifies_again :
    envWithBrowserRunning.launch_app "browser" (fun _ => SpawnRes.ok ⟨2⟩) =
      Except.ok { envWithBrowserRunning with
        running_apps := [("browser", ⟨2⟩)],
        notifications := ["Launched browser"] } := rfl

/-- C2 amended: in the settings-panel client (`BlueLauncher::launch_app`),
launching an app whose logical name is already tracked is a no-op: the state
is returned unchanged (no new entry, no spawn, no notification) together with
the `false` "already running" outcome. -/
theorem launcher_launch_idempotent_while_running (s : BlueLauncher)
    (app : String) (spawn : String → SpawnRes)
    (h : appsContains s.running_apps app = true) :
    s.launch_app app spawn = Except.ok (s, false) := by
  simp [BlueLauncher.launch_app, h]

/-- Settings-panel client state whose config maps "browser" to a path. -/
def freshLauncher : BlueLauncher :=
  { config := TomlValue.table
      [("apps", TomlValue.table [("browser", TomlValue.str "/usr/bin/firefox")])],
    running_apps := [], distro := "arch", brightness := 1/2, volume := 1/2,
    wifi_enabled := false, bluetooth_enabled := false,
    battery_status := "Battery not detected", time := "t",
    clipboard_content := "", notifications := [] }

/-- Settings-panel client state with a tracked browser process. -/
def launcherWithBrowserRunning : BlueLauncher :=
  { freshLauncher with running_apps := [("browser", ⟨1⟩)] }

/-- Witness for the amended C2 at a concrete tracked app. -/
theorem launcher_launch_idempotent_witness :
    appsContains launcherWithBrowserRunning.running_apps "browser" = true ∧
    launcherWithBrowserRunning.launch_app "browser" (fun _ => SpawnRes.ok ⟨2⟩) =
      Except.ok (launcherWithBrowserRunning, false) :=
  ⟨rfl, launcher_launch_idempotent_while_running launcherWithBrowserRunning
    "browser" (fun _ => SpawnRes.ok ⟨2⟩) rfl⟩

/-- C5 amended: in the compositor, provided the config has an "apps" table,
`launch_app` resolves a present string-valued key to its path and falls back
to the literal logical name when the key is absent, attempting execution
directly (a missing per-key lookup neither aborts nor skips the launch). -/
theorem compositor_resolves_with_literal_fallback (s : BlueEnvironment)
    (apps : TomlValue) (app path : String) (spawn : String → SpawnRes)
    (c : Child) (htable : s.config.get "apps" = some apps) :
    (apps.get app = some (TomlValue.str path) →
      BlueEnvironment.resolve_app_path s.config app = Except.ok path) ∧
    (apps.get app = none →
      BlueEnvironment.resolve_app_path s.config app = Except.ok app) ∧
    (apps.get app = none → spawn app = SpawnRes.ok c →
      s.launch_app app spawn = Except.ok { s with
        running_apps := appsInsert s.running_apps app c,
        notifications := s.notifications ++ ["Launched " ++ app] }) := by
  refine ⟨?_, ?_, ?_⟩
  · intro h
    simp [BlueEnvironment.resolve_app_path, TomlValue.index, htable, h,
      TomlValue.as_str, Except.map]
  · intro h
    simp [BlueEnvironment.resolve_app_path, TomlValue.index, htable, h,
      Except.map]
  · intro h hs
    simp [BlueEnvironment.launch_app, BlueEnvironment.resolve_app_path,
      TomlValue.index, htable, h, hs, Except.map]

/-- Compositor state whose config maps "browser" to "/usr/bin/foo". -/
def envWithFoo : BlueEnvironment :=
  { freshEnv with
    config := TomlValue.table
      [("apps", TomlValue.table [("browser", TomlValue.str "/usr/bin/foo")])] }

/-- Witness for the amended C5: "browser" resolves to "/usr/bin/foo", the
unknown name "unknownapp" resolves to itself and is executed directly. -/
theorem compositor_resolves_with_literal_fallback_witness :
    BlueEnvironment.resolve_app_path envWithFoo.config "browser" =
      Except.ok "/usr/bin/foo" ∧
    BlueEnvironment.resolve_app_path envWithFoo.config "unknownapp" =
      Except.ok "unknownapp" ∧
    envWithFoo.launch_app "unknownapp" (fun _ => SpawnRes.ok ⟨3⟩) =
      Except.ok { envWithFoo with
        running_apps := [("unknownapp", ⟨3⟩)],
        notifications := ["Launched unknownapp"] } :=
  ⟨(compositor_resolves_with_literal_fallback envWithFoo
      (TomlValue.table [("browser", TomlValue.str "/usr/bin/foo")])
      "browser" "/usr/bin/foo" (fun _ => SpawnRes.ok ⟨3⟩) ⟨3⟩ rfl).1 rfl,
   (compositor_resolves_with_literal_fallback envWithFoo
      (TomlValue.table [("browser", TomlValue.str "/usr/bin/foo")])
      "unknownapp" "" (fun _ => SpawnRes.ok ⟨3⟩) ⟨3⟩ rfl).2.1 rfl,
   (compositor_resolves_with_literal_fallback envWithFoo
      (TomlValue.table [("browser", TomlValue.str "/usr/bin/foo")])
      "unknownapp" "" (fun _ => SpawnRes.ok ⟨3⟩) ⟨3⟩ rfl).2.2 rfl rfl⟩

/-- Settings-panel client state with an empty apps table. -/
def launcherEmptyApps : BlueLauncher :=
  { freshLauncher with config := TomlValue.table [("apps", TomlValue.table [])] }

/-- C5 counterexample: in the settings-panel client, launching a logical name
with no `apps.<name>` key does not fall back to the literal name — the
unconditional `self.config["apps"][app]` indexing panics ("index not found"),
aborting instead of attempting execution. -/
theorem launcher_missing_key_panics :
    launcherEmptyApps.launch_app "unknownapp" (fun _ => SpawnRes.ok ⟨1⟩) =
      Except.error "index not found" := rfl

/-- C7: when the config document (from the filesystem or the embedded
fallback) fails to parse, compositor startup aborts with the
"Invalid config format" panic: no session state is built and the main loop
is never entered. -/
theorem parse_failure_aborts_before_loop (fileContents : Option String)
    (embedded : String) (parse : String → Option TomlValue)
    (wifiQ btQ batQ : QueryRes) (time : String)
    (h : parse (fileContents.getD embedded) = none) :
    compositorMain fileContents embedded parse wifiQ btQ batQ time =
      MainOutcome.aborted "Invalid config format" ∧
    ∀ s : BlueEnvironment,
      compositorMain fileContents embedded parse wifiQ btQ batQ time ≠
        MainOutcome.enteredLoop s := by
  have hmain : compositorMain fileContents embedded parse wifiQ btQ batQ time =
      MainOutcome.aborted "Invalid config format" := by
    unfold compositorMain BlueEnvironment.new load_config
    simp [h, Except.map]
  refine ⟨hmain, fun s hc => ?_⟩
  rw [hmain] at hc
  exact MainOutcome.noConfusion hc

/-- Witness for C7 at a concrete unparsable document. -/
theorem parse_failure_aborts_before_loop_witness :
    compositorMain none "not toml" (fun _ => none)
        QueryRes.err QueryRes.err QueryRes.err "t" =
      MainOutcome.aborted "Invalid config format" :=
  (parse_failure_aborts_before_loop none "not toml" (fun _ => none)
    QueryRes.err QueryRes.err QueryRes.err "t" rfl).1

/-- C10: the compositor's `launch_app` is total only when the config has an
"apps" table: with a syntactically valid config lacking that key, the
unconditional `self.config["apps"]` indexing panics ("index not found") on
every call, instead of falling back to the literal name; with the table
present the call always completes. -/
theorem launch_app_panics_without_apps_table (s : BlueEnvironment)
    (app : String) (spawn : String → SpawnRes) :
    (s.config.get "apps" = none →
      s.launch_app app spawn = Except.error "index not found") ∧
    (∀ apps, s.config.get "apps" = some apps →
      (s.launch_app app spawn).isOk = true) := by
  constructor
  · intro h
    simp [BlueEnvironment.launch_app, BlueEnvironment.resolve_app_path,
      TomlValue.index, h, Except.map]
  · intro apps h
    simp only [BlueEnvironment.launch_app, BlueEnvironment.resolve_app_path,
      TomlValue.index, h, Except.map]
    cases spawn (((apps.get app).bind TomlValue.as_str).getD app) <;> rfl

/-- A syntactically valid compositor config with no "apps" table at all. -/
def envNoApps : BlueEnvironment :=
  { freshEnv with config := TomlValue.table [("appearance", TomlValue.other)] }

/-- Witness for C10: with a valid config lacking an apps table, a concrete
launch aborts with the indexing panic. -/
theorem launch_app_panics_without_apps_table_witness :
    envNoApps.launch_app "browser" (fun _ => SpawnRes.ok ⟨1⟩) =
      Except.error "index not found" :=
  (launch_app_panics_without_apps_table envNoApps "browser"
    (fun _ => SpawnRes.ok ⟨1⟩)).1 rfl

/-- The retain predicate keeps an entry exactly when the liveness check did
not report an exit. -/
theorem tryWait_none_iff (t : TryWaitRes) :
    tryWaitUnwrapOrNone t = none ↔ t ≠ TryWaitRes.exited := by
  cases t <;> simp [tryWaitUnwrapOrNone]

/-- Membership after a reap pass: the entry was tracked and its process had
not exited. -/
theorem mem_reapApps (tw : Child → TryWaitRes) (m : List (String × Child))
    (k : String) (c : Child) :
    (k, c) ∈ reapApps tw m ↔ (k, c) ∈ m ∧ tw c ≠ TryWaitRes.exited := by
  simp [reapApps, List.mem_filter, tryWait_none_iff]

/-- After a reap pass, a key all of whose entries had exited is gone. -/
theorem appsContains_reapApps_false (tw : Child → TryWaitRes)
    (m : List (String × Child)) (k : String)
    (h : ∀ c, (k, c) ∈ m → tw c = TryWaitRes.exited) :
    appsContains (reapApps tw m) k = false := by
  rw [appsContains, List.any_eq_false]
  rintro ⟨k', c⟩ hp
  rcases List.mem_filter.mp hp with ⟨hm, hlive⟩
  simp only [beq_iff_eq]
  intro hk
  subst hk
  rw [h c hm] at hlive
  simp [tryWaitUnwrapOrNone] at hlive

/-- Inserting a key that is not present appends a fresh entry. -/
theorem appsInsert_eq_append (m : List (String × Child)) (k : String)
    (c : Child) (h : appsContains m k = false) :
    appsInsert m k c = m ++ [(k, c)] := by
  rw [appsInsert]
  congr 1
  rw [List.filter_eq_self]
  intro p hp
  rw [appsContains, List.any_eq_false] at h
  have hf : (p.1 == k) = false := by simpa using h p hp
  simp [bne, hf]

/-- C8: a reap pass removes exactly the tracked entries whose liveness check
reported an exit (entries still running, or whose check errored, are kept),
appends no notification, in both components; and once every entry for a name
has been reaped, a launch of that name is accepted again and records a fresh
entry with a new "Launched" notification. -/
theorem reap_removes_exactly_exited (e : BlueEnvironment) (s : BlueLauncher)
    (tw : Child → TryWaitRes) (k : String) (c c' : Child)
    (apps : TomlValue) (path : String) (spawn : String → SpawnRes) :
    ((k, c) ∈ (e.reap tw).running_apps ↔
      (k, c) ∈ e.running_apps ∧ tw c ≠ TryWaitRes.exited) ∧
    (e.reap tw).notifications = e.notifications ∧
    ((k, c) ∈ (s.reap tw).running_apps ↔
      (k, c) ∈ s.running_apps ∧ tw c ≠ TryWaitRes.exited) ∧
    (s.reap tw).notifications = s.notifications ∧
    ((∀ c0, (k, c0) ∈ s.running_apps → tw c0 = TryWaitRes.exited) →
      s.config.get "apps" = some apps →
      apps.get k = some (TomlValue.str path) →
      spawn path = SpawnRes.ok c' →
      (s.reap tw).launch_app k spawn =
        Except.ok ({ s.reap tw with
          running_apps := (s.reap tw).running_apps ++ [(k, c')],
          notifications := s.notifications ++ ["Launched " ++ k] }, true)) := by
  refine ⟨mem_reapApps tw e.running_apps k c, rfl,
    mem_reapApps tw s.running_apps k c, rfl, ?_⟩
  intro hall htable hkey hspawn
  have hnc : appsContains (reapApps tw s.running_apps) k = false :=
    appsContains_reapApps_false tw s.running_apps k hall
  simp [BlueLauncher.launch_app, BlueLauncher.reap, hnc, TomlValue.index,
    htable, hkey, hspawn, TomlValue.as_str, appsInsert_eq_append _ _ _ hnc]

/-- Witness for C8: after the tracked browser process exits and a reap pass
runs, its entry is gone and a relaunch is accepted with a fresh entry. -/
theorem reap_removes_exactly_exited_witness :
    (launcherWithBrowserRunning.reap (fun _ => TryWaitRes.exited)).running_apps
      = [] ∧
    (launcherWithBrowserRunning.reap (fun _ => TryWaitRes.exited)).launch_app
        "browser" (fun _ => SpawnRes.ok ⟨2⟩) =
      Except.ok
        ({ launcherWithBrowserRunning.reap (fun _ => TryWaitRes.exited) with
          running_apps := [("browser", ⟨2⟩)],
          notifications := ["Launched browser"] }, true) := by
  refine ⟨rfl, ?_⟩
  exact (reap_removes_exactly_exited freshEnv launcherWithBrowserRunning
    (fun _ => TryWaitRes.exited) "browser" ⟨1⟩ ⟨2⟩
    (TomlValue.table [("browser", TomlValue.str "/usr/bin/firefox")])
    "/usr/bin/firefox" (fun _ => SpawnRes.ok ⟨2⟩)).2.2.2.2
    (fun _ _ => rfl) rfl rfl rfl

/-- C9 amended: the wifi/bluetooth seeds default to disabled when the query
fails or the output lacks the recognized substring; the battery seed is
"Battery not detected" exactly on query failure, while a successful query
whose output has no recognized line yields "" in the compositor and
"Unknown battery status" in the settings-panel client. -/
theorem startup_seeding_defaults (out : String) :
    (BlueEnvironment.get_wifi_status QueryRes.err = false) ∧
    (strContains out "enabled" = false →
      BlueEnvironment.get_wifi_status (QueryRes.ok out) = false) ∧
    (BlueEnvironment.get_bluetooth_status QueryRes.err = false) ∧
    (strContains out "Powered: yes" = false →
      BlueEnvironment.get_bluetooth_status (QueryRes.ok out) = false) ∧
    (BlueLauncher.get_wifi_status QueryRes.err = false) ∧
    (BlueLauncher.get_bluetooth_status QueryRes.err = false) ∧
    (BlueEnvironment.get_battery_status QueryRes.err = "Battery not detected") ∧
    (BlueLauncher.get_battery_status QueryRes.err = "Battery not detected") ∧
    ((∀ line ∈ strLines out, strContains line "state:" = false ∧
        strContains line "percentage:" = false) →
      BlueEnvironment.get_battery_status (QueryRes.ok out) = "" ∧
      BlueLauncher.get_battery_status (QueryRes.ok out) =
        "Unknown battery status") := by
  refine ⟨rfl, ?_, rfl, ?_, rfl, rfl, rfl, rfl, ?_⟩
  · intro h
    simp [BlueEnvironment.get_wifi_status, h]
  · intro h
    simp [BlueEnvironment.get_bluetooth_status, h]
  · intro h
    have hf : (strLines out).filter
        (fun line => strContains line "state:" || strContains line "percentage:")
          = [] := by
      rw [List.filter_eq_nil_iff]
      intro l hl
      have hrec := h l hl
      simp [hrec.1, hrec.2]
    have hn : (strLines out).find?
        (fun line => strContains line "state:" || strContains line "percentage:")
          = none := by
      rw [List.find?_eq_none]
      intro l hl
      have hrec := h l hl
      simp [hrec.1, hrec.2]
    constructor
    · show String.intercalate ", " ((strLines out).filter
        (fun line => strContains line "state:" || strContains line "percentage:"))
          = ""
      rw [hf]
      rfl
    · show ((((strLines out).find?
        (fun line => strContains line "state:" ||
          strContains line "percentage:")).map String.trim).getD
            "Unknown battery status") = "Unknown battery status"
      rw [hn]
      rfl

/-- C9 counterexample: a successful battery query whose captured output has no
recognized line does not fall back to "Battery not detected": the compositor
yields the empty string and the settings-panel client yields
"Unknown battery status". -/
theorem battery_unrecognized_output_not_default :
    BlueEnvironment.get_battery_status (QueryRes.ok "hello") = "" ∧
    BlueLauncher.get_battery_status (QueryRes.ok "hello") =
      "Unknown battery status" ∧
    ("" : String) ≠ "Battery not detected" ∧
    ("Unknown battery status" : String) ≠ "Battery not detected" := by
  refine ⟨rfl, rfl, by decide, by decide⟩

/-- Witness for the amended C9 at concrete captured outputs. -/
theorem startup_seeding_defaults_witness :
    BlueEnvironment.get_wifi_status (QueryRes.ok "radio off") = false ∧
    BlueEnvironment.get_battery_status (QueryRes.ok "hello") = "" :=
  ⟨(startup_seeding_defaults "radio off").2.1 rfl,
   ((startup_seeding_defaults "hello").2.2.2.2.2.2.2.2
     (by
       intro l hl
       rw [show strLines "hello" = ["hello"] from rfl] at hl
       simp only [List.mem_singleton] at hl
       subst hl
       exact ⟨rfl, rfl⟩)).1⟩
